import Mathlib

/-!
Shallow embedding of the `pasal-ko-website` repository (a FastAPI/SQLAlchemy
CRUD backend duplicated across three variants: a flat `app/` variant, a
`clean_code_version/` layered variant, and a `traditional/` variant) together
with proofs settling the frozen claims about its specification.

Conventions:
* database tables are Lean lists of row structures; every repository /
  router function is embedded as a state-passing function
  `input → State → State × Except PyErr output`, where a returned `.error`
  models a raised Python exception (an `HTTPException` carries its status
  code and detail string);
* SQLAlchemy queries (`filter`, `first`, `count`, `delete`, `update`,
  `limit`, `offset`, `order_by`) become `List.filter`, `List.find?`,
  `List.length`, filtering out, mapping, `take`, `drop` and sorting;
* external collaborators that are not part of the repository (the password
  hash library, the JWT library, the environment-read settings object) are
  modelled from the spec's stated contracts; each such definition is marked
  `Modelled from the spec:` in its doc comment.
-/

/-- A raised Python exception as observed by the HTTP layer: an
`HTTPException(status_code, detail)`, an `AttributeError` from accessing a
missing attribute, a `TypeError` from an invalid constructor keyword, or a
pydantic `ValidationError` naming the field that could not be populated. -/
inductive PyErr where
  | http (status : Nat) (detail : String)
  | attributeError (name : String)
  | typeError (msg : String)
  | validationError (field : String)
deriving Repr, DecidableEq

/-- A dynamically typed Python value, used to model attribute access on ORM
rows by column name. -/
inductive PyVal where
  | s (v : String)
  | n (v : Nat)
  | b (v : Bool)
deriving Repr, DecidableEq

/-- Case-insensitive substring containment on lists of characters: the
semantics of SQL `ILIKE '%search%'` for a search string without wildcard
characters (the repository always interpolates the raw query parameter into
the pattern `%…%`). -/
def charsContain (hay needle : List Char) : Bool :=
  match hay with
  | [] => needle.isEmpty
  | _ :: t => needle.isPrefixOf hay || charsContain t needle

/-- `ilikeContains name search` is `name ILIKE '%search%'`:
case-insensitive containment of `search` in `name` (both sides
lower-cased character by character). -/
def ilikeContains (name search : String) : Bool :=
  charsContain (name.data.map Char.toLower) (search.data.map Char.toLower)

/-! ## Flat variant data model (`src/app/models.py`)

The `traditional/` variant imports `..models` and `..schemas`, which are not
present in the tree; its router uses exactly the class and column names
declared in `src/app/models.py` (`Product`, `Votes` with `user_id` /
`product_id`) and `src/app/schemas.py` (`Vote` with `product_id`,
`dir : bool`), so the flat variant's models serve for both. -/

/-- Row of the flat `users` table (`src/app/models.py`, class `User`):
columns `id`, `email`, `password`, `created_at`, `approved`, `admin`.
There is no `username` column. -/
structure FlatUser where
  id : Nat
  email : String
  password : String
  created_at : Nat
  approved : Bool
  admin : Bool
deriving Repr, DecidableEq

/-- Row of the flat `products` table (`src/app/models.py`, class `Product`).
`is_available` is declared `Boolean, nullable=False, server_default="True"`,
but the pydantic `ProductCreate` schema admits `None` for it and the routers
pass the value through unchanged, so the embedded row stores an
`Option Bool`. -/
structure FlatProduct where
  id : Nat
  name : String
  price : Int
  is_available : Option Bool
  created_at : Nat
  user_id : Nat
deriving Repr, DecidableEq

/-- Row of the flat `votes` table (`src/app/models.py`, class `Votes`):
composite primary key (`user_id`, `product_id`). -/
structure FlatVote where
  user_id : Nat
  product_id : Nat
deriving Repr, DecidableEq

/-- State of the flat / traditional variant's database plus the surrogate-id
sequence for `products.id` and the database clock feeding the
`server_default now()` columns. -/
structure FlatState where
  users : List FlatUser
  products : List FlatProduct
  votes : List FlatVote
  nextProductId : Nat
  now : Nat
deriving Repr, DecidableEq

/-- Column names of the flat `User` model: only these are attributes of the
SQLAlchemy class `models.User`. -/
def flatUserColumns : List String :=
  ["id", "email", "password", "created_at", "approved", "admin"]

/-- Access of a column attribute on a SQLAlchemy declarative class
(`models.User.<name>`): yields the column reference when the mapping
declares the column and raises `AttributeError` otherwise. -/
def columnRef (cols : List String) (name : String) : Except PyErr String :=
  if cols.contains name then .ok name else .error (.attributeError name)

/-- Attribute access by column name on a flat `users` row. -/
def flatUserAttr (u : FlatUser) : String → Option PyVal
  | "id" => some (.n u.id)
  | "email" => some (.s u.email)
  | "password" => some (.s u.password)
  | "created_at" => some (.n u.created_at)
  | "approved" => some (.b u.approved)
  | "admin" => some (.b u.admin)
  | _ => none

/-! ## Declared table schemas (for the store-level uniqueness claim)

Transcriptions of the column declarations of the vote tables, keeping the
`primary_key` / `unique` / `nullable` flags exactly as written in the
source. Neither variant declares any table-level `UniqueConstraint`. -/

/-- One SQLAlchemy `Column(...)` declaration. -/
structure ColumnSpec where
  name : String
  primary_key : Bool := false
  unique : Bool := false
  nullable : Bool := true
deriving Repr, DecidableEq

/-- A declared table: its columns and any table-level unique constraints. -/
structure TableSchema where
  tablename : String
  columns : List ColumnSpec
  unique_constraints : List (List String) := []
deriving Repr, DecidableEq

/-- The declared primary-key columns of a table, in declaration order. -/
def TableSchema.primaryKeyCols (t : TableSchema) : List String :=
  (t.columns.filter (fun c => c.primary_key)).map (fun c => c.name)

/-- Whether a single column is declared `unique=True`. -/
def TableSchema.colUnique (t : TableSchema) (c : String) : Bool :=
  t.columns.any (fun col => col.name == c && col.unique)

/-- Whether the schema itself forces at most one row per (`a`, `b`) pair:
the pair (in either order) is the composite primary key, or is a declared
unique constraint, or one of the two columns is individually unique. -/
def declaresPairUniqueness (t : TableSchema) (a b : String) : Bool :=
  t.primaryKeyCols == [a, b] || t.primaryKeyCols == [b, a] ||
  t.unique_constraints.any (fun l => l == [a, b] || l == [b, a]) ||
  t.colUnique a || t.colUnique b

/-- Schema of the flat / traditional `votes` table
(`src/app/models.py`, class `Votes`): composite primary key
(`user_id`, `product_id`). -/
def flatVotesTable : TableSchema :=
  { tablename := "votes"
    columns :=
      [ { name := "user_id", primary_key := true }
      , { name := "product_id", primary_key := true } ] }

/-- Schema of the layered `votes` table
(`src/clean_code_version/src/votes/infrastructure/models.py`, class
`VoteModel`): surrogate `id` primary key; `user_id` and `post_id` are plain
non-nullable foreign-key columns with no uniqueness declaration. -/
def cleanVotesTable : TableSchema :=
  { tablename := "votes"
    columns :=
      [ { name := "id", primary_key := true, nullable := false }
      , { name := "user_id", nullable := false }
      , { name := "post_id", nullable := false }
      , { name := "created_at", nullable := false } ] }

/-! ## Traditional variant: the vote toggle endpoint
(`src/traditional/app/routers/vote.py`, function `vote`). -/

/-- The request body of the vote endpoint (`schemas.Vote` in
`src/app/schemas.py`): a product id and a boolean direction
(`dir = true` is an up-vote). -/
structure VoteIn where
  product_id : Nat
  dir : Bool
deriving Repr, DecidableEq

/-- The existing-vote lookup of the traditional vote endpoint:
`db.query(models.Votes).filter(product_id == …, user_id == …)`. -/
def tradFindVote (db : FlatState) (pid uid : Nat) : Option FlatVote :=
  db.votes.find? (fun w => w.product_id == pid && w.user_id == uid)

/-- Whether a product row with the given id exists. -/
def productExists (db : FlatState) (pid : Nat) : Bool :=
  (db.products.find? (fun p => p.id == pid)).isSome

/-- The traditional vote toggle (`src/traditional/app/routers/vote.py`):
404 when the product is absent; up-vote inserts unless a vote by this user
on this product already exists (409); down-vote deletes the matching votes
unless none exists (404). -/
def tradVote (v : VoteIn) (currentUserId : Nat) (db : FlatState) :
    FlatState × Except PyErr String :=
  match db.products.find? (fun p => p.id == v.product_id) with
  | none =>
      (db, .error (.http 404
        ("Product with id " ++ toString v.product_id ++ " doesn\x27t exist")))
  | some _ =>
    let found := tradFindVote db v.product_id currentUserId
    if v.dir then
      match found with
      | some _ =>
          (db, .error (.http 409
            ("User " ++ toString currentUserId ++
             " has already voted on product " ++ toString v.product_id)))
      | none =>
          ({ db with votes :=
              db.votes ++ [{ user_id := currentUserId, product_id := v.product_id }] },
           .ok "Successfully added vote")
    else
      match found with
      | none => (db, .error (.http 404 "Vote does not exist"))
      | some _ =>
          ({ db with votes := (db.votes.filter
              (fun w => !(w.product_id == v.product_id && w.user_id == currentUserId))) },
           .ok "Successfully deleted vote")

/-! ## External collaborators, modelled from the spec (section 6 contracts) -/

/-- Modelled from the spec: the password hasher of `app/utils.py` (absent
from the tree) and of passlib's bcrypt context — a one-way hash; modelled
as an injective tagging of the plaintext. -/
def hashPassword (p : String) : String := "$2b$" ++ p

/-- Modelled from the spec: constant-time hash verification
(`utils.verify` / `pwd_context.verify`): the plaintext matches the stored
hash exactly when hashing it reproduces the hash. -/
def verifyPassword (plain hashed : String) : Bool := hashed == hashPassword plain

/-- Modelled from the spec: the environment-read settings object
(`shared/config.py` is absent from the tree): token secret, algorithm and
expiry in minutes. -/
structure JwtSettings where
  secret_key : String
  algorithm : String
  access_token_expire_minutes : Nat
deriving Repr, DecidableEq

/-- Modelled from the spec: the claims payload carried by a token — the
repository signs `{user_id, exp}`; `user_id` is `Option` because
`payload.get("user_id")` may be absent. -/
structure JwtPayload where
  user_id : Option Nat
  exp : Nat
deriving Repr, DecidableEq

/-- Modelled from the spec: a signed token as produced by the JWT library —
self-contained claims plus the signing key and algorithm (standing for the
signature). -/
structure Jwt where
  payload : JwtPayload
  key : String
  alg : String
deriving Repr, DecidableEq

/-- Modelled from the spec: `jwt.encode(claims, secret, algorithm)`. -/
def jwtEncode (p : JwtPayload) (key alg : String) : Jwt := ⟨p, key, alg⟩

/-- Modelled from the spec: `jwt.decode(token, secret, algorithms)` at time
`now` — succeeds exactly when the key matches, the algorithm is accepted and
the token is unexpired (`exp > now`); any failure is a `JWTError`. -/
def jwtDecode (t : Jwt) (key : String) (algs : List String) (now : Nat) :
    Option JwtPayload :=
  if t.key == key && algs.contains t.alg && decide (now < t.payload.exp) then
    some t.payload
  else
    none

/-! ## Flat variant routers -/

/-- The request body of flat user registration (`schemas.UserCreate`):
a username and a password. -/
structure UserCreateIn where
  username : String
  password : String
deriving Repr, DecidableEq

/-- Flat user registration (`src/app/routers/users.py`, `create_user`):
evaluating the filter expression `models.User.username == user.username`
accesses the attribute `username` on the `User` mapping, which declares no
such column, so the call raises `AttributeError` before touching the
store. The remainder of the body (duplicate check, hashing,
`models.User(**user.dict())`) is transcribed below the column lookup but is
unreachable. -/
def flatCreateUser (u : UserCreateIn) (db : FlatState) :
    FlatState × Except PyErr FlatUser :=
  match columnRef flatUserColumns "username" with
  | .error e => (db, .error e)
  | .ok col =>
    match db.users.find? (fun w => flatUserAttr w col == some (.s u.username)) with
    | some _ =>
        (db, .error (.http 403
          ("User with username " ++ u.username ++ " already exists!")))
    | none =>
      -- user.password = utils.hash(user.password); models.User(**user.dict())
      -- would pass a `username` keyword the mapping does not declare.
      let _hashed := hashPassword u.password
      match columnRef flatUserColumns "username" with
      | .error e => (db, .error e)
      | .ok _ =>
          (db, .error (.typeError
            "username is an invalid keyword argument for User"))

/-- Flat login (`src/app/routers/auth.py`, `login`): the credential lookup
filters on `models.User.username`, so — the flat `User` model declaring no
`username` column — it raises `AttributeError` before any credential
check. The credential branches below the lookup (403 on absent user or hash
mismatch, then token issuance via the absent `app/oauth2.py`, modelled from
the spec's token contract) are transcribed but unreachable. -/
def flatLogin (s : JwtSettings) (username password : String) (db : FlatState) :
    FlatState × Except PyErr Jwt :=
  match columnRef flatUserColumns "username" with
  | .error e => (db, .error e)
  | .ok col =>
    match db.users.find? (fun w => flatUserAttr w col == some (.s username)) with
    | none => (db, .error (.http 403 "Invalid credentials"))
    | some user =>
      if !(verifyPassword password user.password) then
        (db, .error (.http 403 "Invalid credentials"))
      else
        (db, .ok (jwtEncode
          { user_id := some user.id
          , exp := db.now + 60 * s.access_token_expire_minutes }
          s.secret_key s.algorithm))

/-- Number of `votes` rows referencing a product: the aggregate
`func.count(models.Votes.product_id)` grouped by product over the left
outer join (zero when no vote row joins). -/
def flatVoteCount (db : FlatState) (pid : Nat) : Nat :=
  (db.votes.filter (fun w => w.product_id == pid)).length

/-- The flat `UserOut` response schema (`schemas.UserOut`): id and
username. -/
structure UserOut where
  id : Nat
  username : String
deriving Repr, DecidableEq

/-- The flat `Product` response schema (`schemas.Product`), including the
nested `user : UserOut`. -/
structure ProductEntity where
  name : String
  price : Int
  is_available : Option Bool
  id : Nat
  created_at : Nat
  user_id : Nat
  user : UserOut
deriving Repr, DecidableEq

/-- One element of the flat list-endpoint response (`schemas.ProductOut`):
the serialized product together with its aggregated vote count. -/
structure ProductOut where
  product : ProductEntity
  votes : Nat
deriving Repr, DecidableEq

/-- Validating a `users` row against `UserOut`: `username` is read through
the row's attribute table — the flat `User` model declares no such column,
so validation fails for every row. -/
def userOutFromOrm (u : FlatUser) : Except PyErr UserOut :=
  match flatUserAttr u "username" with
  | some (.s un) => .ok { id := u.id, username := un }
  | _ => .error (.validationError "username")

/-- `schemas.Product.from_orm(product)`: reads the product columns and the
`user` relationship (the owning `users` row), validating the latter
against `UserOut` — which fails on the missing `username`. -/
def productFromOrm (db : FlatState) (p : FlatProduct) :
    Except PyErr ProductEntity :=
  match db.users.find? (fun u => u.id == p.user_id) with
  | none => .error (.validationError "user")
  | some u =>
    match userOutFromOrm u with
    | .error e => .error e
    | .ok uo =>
        .ok { name := p.name, price := p.price, is_available := p.is_available
            , id := p.id, created_at := p.created_at, user_id := p.user_id
            , user := uo }

/-- The list comprehension of `get_products`
(`src/app/routers/products.py` lines 30-33): each (product, count) result
row becomes `ProductOut(Product=Product.from_orm(product), votes=votes)`;
the first failing conversion aborts the whole response. -/
def productsOut (db : FlatState) :
    List (FlatProduct × Nat) → Except PyErr (List ProductOut)
  | [] => .ok []
  | (p, c) :: t =>
    match productFromOrm db p with
    | .error e => .error e
    | .ok pe =>
      match productsOut db t with
      | .error e => .error e
      | .ok rest => .ok ({ product := pe, votes := c } :: rest)

/-- The flat products query before pagination
(`src/app/routers/products.py`, `get_products`, lines 21-29): left outer
join of products with votes, grouped by product id (each product appears
once with its vote count), filtered by `name ILIKE '%search%'`. -/
def flatProductsQuery (db : FlatState) (search : String) :
    List (FlatProduct × Nat) :=
  ((db.products.map (fun p => (p, flatVoteCount db p.id))).filter
    (fun pc => ilikeContains pc.1.name search))

/-- The flat list endpoint (`get_products`): the query page — `OFFSET skip`
then `LIMIT limit` — serialized inside the function body through
`Product.from_orm`, which fails for every row (the nested user lacks
`username`). -/
def flatGetProducts (db : FlatState) (limit skip : Nat) (search : String) :
    Except PyErr (List ProductOut) :=
  productsOut db (((flatProductsQuery db search).drop skip).take limit)

/-- The request body for product creation (`schemas.ProductCreate`). -/
structure ProductCreateIn where
  name : String
  price : Int
  is_available : Option Bool := none
deriving Repr, DecidableEq

/-- Flat product creation (`src/app/routers/products.py`, `post_product`):
403 unless the caller is approved, else inserts a product owned by the
caller. -/
def flatPostProduct (v : ProductCreateIn) (currentUser : FlatUser)
    (db : FlatState) : FlatState × Except PyErr FlatProduct :=
  if !currentUser.approved then
    (db, .error (.http 403 "You\x27re not authorized yet!"))
  else
    let p : FlatProduct :=
      { id := db.nextProductId, name := v.name, price := v.price
      , is_available := v.is_available, created_at := db.now
      , user_id := currentUser.id }
    ({ db with products := db.products ++ [p]
             , nextProductId := db.nextProductId + 1 },
     .ok p)

/-- Flat product update (`update_product`): 403 unless approved, 404 when
absent, else overwrites the matching rows with the request fields and
returns the re-read row. -/
def flatUpdateProduct (id : Nat) (v : ProductCreateIn) (currentUser : FlatUser)
    (db : FlatState) : FlatState × Except PyErr (Option FlatProduct) :=
  if !currentUser.approved then
    (db, .error (.http 403 "You\x27re not authorized yet!"))
  else
    match db.products.find? (fun p => p.id == id) with
    | none =>
        (db, .error (.http 404
          ("product with id: " ++ toString id ++ " does not exist")))
    | some _ =>
      let products' := db.products.map (fun p =>
        if p.id == id then
          { p with name := v.name, price := v.price
                 , is_available := v.is_available }
        else p)
      ({ db with products := products' },
       .ok (products'.find? (fun p => p.id == id)))

/-- Flat product deletion (`delete_product`): 403 unless approved, 404 when
absent, else deletes the matching rows. -/
def flatDeleteProduct (id : Nat) (currentUser : FlatUser) (db : FlatState) :
    FlatState × Except PyErr Unit :=
  if !currentUser.approved then
    (db, .error (.http 403 "You\x27re not authorized yet!"))
  else
    match db.products.find? (fun p => p.id == id) with
    | none =>
        (db, .error (.http 404
          ("Product with id " ++ toString id ++ " does not exist.")))
    | some _ =>
        ({ db with products := (db.products.filter (fun p => !(p.id == id))) },
         .ok ())

/-! ## Layered (`clean_code_version`) variant data model

Rows of the layered `users` / `posts` / `votes` tables
(`auth/infrastructure/models.py`, `posts/infrastructure/models.py`,
`votes/infrastructure/models.py`), and the pydantic domain entities the
repositories serialize them into with `from_orm`
(`auth/domain/entities/user.py`, `posts/domain/entities/post.py`,
`votes/domain/entities/vote.py`). The entity declarations do not match the
rows: `Post` requires an `owner_username` field and `Vote` a `dir` field
that no row carries, so those `from_orm` calls raise a `ValidationError`;
`User.from_orm` succeeds but drops the password hash (only the never-used
`UserInDB` entity declares `hashed_password`). `from_orm` is modelled as a
field-by-field read: fields present on the row are copied directly, and
the one the row lacks is looked up through the row's attribute table and
fails. -/

/-- Row of the layered `users` table (`UserModel`): `password` holds the
hash. -/
structure CleanUser where
  id : Nat
  email : String
  username : String
  password : String
  created_at : Nat
deriving Repr, DecidableEq

/-- Row of the layered `posts` table (`PostModel`), including the
denormalized `votes` counter (`server_default '0'`). -/
structure CleanPost where
  id : Nat
  title : String
  content : String
  published : Bool
  created_at : Nat
  owner_id : Nat
  votes : Nat
deriving Repr, DecidableEq

/-- Row of the layered `votes` table (`VoteModel`): surrogate id, no
uniqueness on (`user_id`, `post_id`). -/
structure CleanVote where
  id : Nat
  user_id : Nat
  post_id : Nat
  created_at : Nat
deriving Repr, DecidableEq

/-- State of the layered variant's database, with the surrogate-id
sequences and the database clock. -/
structure CleanState where
  users : List CleanUser
  posts : List CleanPost
  votes : List CleanVote
  nextPostId : Nat
  nextVoteId : Nat
  now : Nat
deriving Repr, DecidableEq

/-- The `User` domain entity (`auth/domain/entities/user.py`): email,
username, id, created_at — no password hash and no approved/admin flags. -/
structure CleanUserEntity where
  id : Nat
  email : String
  username : String
  created_at : Nat
deriving Repr, DecidableEq

/-- `User.from_orm(row)`: every declared field exists on the row, so the
conversion always succeeds — and drops the row's `password` hash. -/
def userFromOrm (row : CleanUser) : CleanUserEntity :=
  { id := row.id, email := row.email, username := row.username
  , created_at := row.created_at }

/-- Attribute access by name on a `User` entity instance: only the four
declared fields exist; in particular `hashed_password` does not. -/
def cleanUserEntityAttr (u : CleanUserEntity) : String → Option PyVal
  | "id" => some (.n u.id)
  | "email" => some (.s u.email)
  | "username" => some (.s u.username)
  | "created_at" => some (.n u.created_at)
  | _ => none

/-- The `Post` domain entity (`posts/domain/entities/post.py`): it
requires `owner_username`, which `PostModel` rows do not carry. -/
structure PostEntity where
  title : String
  content : String
  published : Bool
  id : Nat
  created_at : Nat
  owner_id : Nat
  owner_username : String
  votes : Nat
deriving Repr, DecidableEq

/-- Attribute access by column name on a `posts` row: the columns of
`PostModel`; there is no `owner_username`. -/
def cleanPostAttr (p : CleanPost) : String → Option PyVal
  | "id" => some (.n p.id)
  | "title" => some (.s p.title)
  | "content" => some (.s p.content)
  | "published" => some (.b p.published)
  | "created_at" => some (.n p.created_at)
  | "owner_id" => some (.n p.owner_id)
  | "votes" => some (.n p.votes)
  | _ => none

/-- `Post.from_orm(row)`: the declared fields are read from the row;
`owner_username` is not a column of `PostModel`, so validation fails for
every row. -/
def postFromOrm (row : CleanPost) : Except PyErr PostEntity :=
  match cleanPostAttr row "owner_username" with
  | some (.s ou) =>
      .ok { title := row.title, content := row.content
          , published := row.published, id := row.id
          , created_at := row.created_at, owner_id := row.owner_id
          , owner_username := ou, votes := row.votes }
  | _ => .error (.validationError "owner_username")

/-- The `Vote` domain entity (`votes/domain/entities/vote.py`): it
requires `dir`, which `VoteModel` rows do not carry. -/
structure VoteEntity where
  post_id : Nat
  dir : Int
  id : Nat
  user_id : Nat
  created_at : Nat
deriving Repr, DecidableEq

/-- Attribute access by column name on a `votes` row: the columns of
`VoteModel`; there is no `dir`. -/
def cleanVoteAttr (w : CleanVote) : String → Option PyVal
  | "id" => some (.n w.id)
  | "user_id" => some (.n w.user_id)
  | "post_id" => some (.n w.post_id)
  | "created_at" => some (.n w.created_at)
  | _ => none

/-- `Vote.from_orm(row)`: `dir` is not a column of `VoteModel`, so
validation fails for every row. -/
def voteFromOrm (row : CleanVote) : Except PyErr VoteEntity :=
  match cleanVoteAttr row "dir" with
  | some (.n d) =>
      .ok { post_id := row.post_id, dir := (d : Int), id := row.id
          , user_id := row.user_id, created_at := row.created_at }
  | _ => .error (.validationError "dir")

/-! ### Layered auth (`auth/…`) -/

/-- `SQLAlchemyUserRepository.get_by_username`: the found row serialized
through `User.from_orm` — the hash is dropped. -/
def cleanGetByUsername (db : CleanState) (username : String) :
    Option CleanUserEntity :=
  (db.users.find? (fun u => u.username == username)).map userFromOrm

/-- `SQLAlchemyUserRepository.get_by_id`, likewise through
`User.from_orm`. -/
def cleanGetById (db : CleanState) (uid : Nat) : Option CleanUserEntity :=
  (db.users.find? (fun u => u.id == uid)).map userFromOrm

/-- `AuthService.create_access_token(data={"user_id": user.id})`: signs
the claims plus `exp = now + access_token_expire_minutes`. -/
def createAccessToken (s : JwtSettings) (now : Nat) (uid : Nat) : Jwt :=
  jwtEncode
    { user_id := some uid, exp := now + 60 * s.access_token_expire_minutes }
    s.secret_key s.algorithm

/-- `AuthService.verify_token`: decodes (signature, algorithm and expiry
check), reads `payload.get("user_id")`, and resolves it against the user
store; `None` on any failure. -/
def verifyToken (s : JwtSettings) (now : Nat) (db : CleanState) (t : Jwt) :
    Option CleanUserEntity :=
  match jwtDecode t s.secret_key [s.algorithm] now with
  | none => none
  | some payload =>
    match payload.user_id with
    | none => none
    | some uid => cleanGetById db uid

/-- `AuthUseCases.authenticate_user`: username lookup, then
`verify_password(password, user.hashed_password)` — but the `User` entity
returned by `get_by_username` declares no `hashed_password` attribute, so
for every existing username the attribute access raises `AttributeError`
before any hash comparison. The comparison itself (in the unreachable
arm) would check the password against a string hash. -/
def authenticateUser (db : CleanState) (username password : String) :
    Except PyErr (Option CleanUserEntity) :=
  match cleanGetByUsername db username with
  | none => .ok none
  | some user =>
    match cleanUserEntityAttr user "hashed_password" with
    | none => .error (.attributeError "hashed_password")
    | some (.s h) =>
        .ok (if !(verifyPassword password h) then none else some user)
    | some _ => .error (.typeError "hash must be a string")

/-- The layered login endpoint (`auth/presentation/router.py`, `login`):
401 "Incorrect username or password" when authentication returns `None`,
a fresh token on success; an exception from `authenticate_user`
propagates. The store is never modified. -/
def cleanLogin (s : JwtSettings) (db : CleanState) (username password : String) :
    Except PyErr Jwt :=
  match authenticateUser db username password with
  | .error e => .error e
  | .ok none => .error (.http 401 "Incorrect username or password")
  | .ok (some user) => .ok (createAccessToken s db.now user.id)

/-! ### Layered posts (`posts/…`) -/

/-- The request body of layered post creation (`PostCreate`). -/
structure PostCreateIn where
  title : String
  content : String
  published : Bool := true
deriving Repr, DecidableEq

/-- `SQLAlchemyPostRepository.create`, reached from the `create_post`
route through `PostUseCases.create_post` and `PostService.create_post`
without any authorization check beyond token authentication: commits a
post row owned by the caller (votes counter at its `'0'` default), then
serializes it with `Post.from_orm` — which raises, after the commit. -/
def cleanCreatePost (p : PostCreateIn) (currentUser : CleanUserEntity)
    (db : CleanState) : CleanState × Except PyErr PostEntity :=
  let row : CleanPost :=
    { id := db.nextPostId, title := p.title, content := p.content
    , published := p.published, created_at := db.now
    , owner_id := currentUser.id, votes := 0 }
  ({ db with posts := db.posts ++ [row], nextPostId := db.nextPostId + 1 },
   postFromOrm row)

/-- `SQLAlchemyPostRepository.get_by_id`: raises 404 when absent (so the
`if not post` guard in `VoteService.vote_post` is never taken), else
returns `Post.from_orm(post)` — which raises for every row. -/
def cleanGetPostById (db : CleanState) (pid : Nat) : Except PyErr PostEntity :=
  match db.posts.find? (fun p => p.id == pid) with
  | none =>
      .error (.http 404 ("Post with id: " ++ toString pid ++ " was not found"))
  | some p => postFromOrm p

/-- Descending creation-time order: `order_by(desc(PostModel.created_at))`
(later posts first). -/
def postLater (a b : CleanPost) : Prop := b.created_at ≤ a.created_at

instance : DecidableRel postLater := fun a b => Nat.decLe b.created_at a.created_at

instance : IsTotal CleanPost postLater :=
  ⟨fun a b => Nat.le_total b.created_at a.created_at⟩

instance : IsTrans CleanPost postLater :=
  ⟨fun _ _ _ h1 h2 => Nat.le_trans h2 h1⟩

/-- The page of rows `SQLAlchemyPostRepository.get_all` selects: all
posts ordered by `created_at` descending, with `OFFSET skip` then
`LIMIT limit`. -/
def cleanPostsPage (db : CleanState) (skip limit : Nat) : List CleanPost :=
  (((List.insertionSort postLater db.posts).drop skip).take limit)

/-- The list comprehension `[Post.from_orm(post) for post in posts]`: the
first failing conversion aborts the whole response. -/
def postsFromOrm : List CleanPost → Except PyErr (List PostEntity)
  | [] => .ok []
  | p :: t =>
    match postFromOrm p with
    | .error e => .error e
    | .ok q =>
      match postsFromOrm t with
      | .error e => .error e
      | .ok qs => .ok (q :: qs)

/-- `SQLAlchemyPostRepository.get_all`, reached unchanged from the
`get_posts` route (which accepts only `skip` and `limit` — it declares no
search parameter): the ordered page serialized through `Post.from_orm`. -/
def cleanGetAll (db : CleanState) (skip limit : Nat) :
    Except PyErr (List PostEntity) :=
  postsFromOrm (cleanPostsPage db skip limit)

/-- `SQLAlchemyPostRepository.update_votes`: 404 when the post is absent,
else commits the given count into the `votes` column of the matching rows
and returns `Post.from_orm` of the re-read row — which raises, after the
commit (`from_orm` of a `None` re-read would raise as well). -/
def cleanUpdateVotes (db : CleanState) (pid cnt : Nat) :
    CleanState × Except PyErr PostEntity :=
  match db.posts.find? (fun p => p.id == pid) with
  | none =>
      (db, .error (.http 404 ("Post with id: " ++ toString pid ++ " was not found")))
  | some _ =>
    let posts' := db.posts.map (fun p => if p.id == pid then { p with votes := cnt } else p)
    ({ db with posts := posts' },
     match posts'.find? (fun p => p.id == pid) with
     | some p' => postFromOrm p'
     | none => .error (.validationError "NoneType"))

/-! ### Layered votes (`votes/…`) -/

/-- The request body of the layered vote endpoint (`VoteCreate`): a post
id and an integer direction (`1` up, `0` down; pydantic admits any int). -/
structure VoteCreateIn where
  post_id : Nat
  dir : Int
deriving Repr, DecidableEq

/-- `SQLAlchemyVoteRepository.get_vote`: `None` when no row matches, else
`Vote.from_orm(vote)` — which raises for every row. -/
def cleanGetVote (db : CleanState) (pid uid : Nat) :
    Except PyErr (Option VoteEntity) :=
  match db.votes.find? (fun w => w.post_id == pid && w.user_id == uid) with
  | none => .ok none
  | some w =>
    match voteFromOrm w with
    | .error e => .error e
    | .ok ve => .ok (some ve)

/-- `SQLAlchemyVoteRepository.create`: commits one vote row (fresh
surrogate id, `created_at` default), then returns
`Vote.from_orm(db_vote)` — which raises, after the commit. -/
def cleanCreateVote (db : CleanState) (pid uid : Nat) :
    CleanState × Except PyErr VoteEntity :=
  let nv : CleanVote :=
    { id := db.nextVoteId, user_id := uid, post_id := pid, created_at := db.now }
  ({ db with votes := db.votes ++ [nv], nextVoteId := db.nextVoteId + 1 },
   voteFromOrm nv)

/-- `SQLAlchemyVoteRepository.delete` applied on the branch where the
vote was already found: deletes every row matching
(`post_id`, `user_id`). -/
def cleanDeleteVote (db : CleanState) (pid uid : Nat) : CleanState :=
  { db with votes := (db.votes.filter
      (fun w => !(w.post_id == pid && w.user_id == uid))) }

/-- `SQLAlchemyVoteRepository.get_vote_count`. -/
def cleanVoteCount (db : CleanState) (pid : Nat) : Nat :=
  (db.votes.filter (fun w => w.post_id == pid)).length

/-- `VoteService.vote_post`: verifies the post exists (the repository's
`get_by_id` raises on every input — 404 if the post is absent, otherwise
the `ValidationError` of `Post.from_orm`), looks up the caller's existing
vote, then — `dir == 1`: `None` when a vote exists, else insert;
otherwise: `None` when no vote exists, else delete — and on the mutating
paths recomputes the post's vote count from the vote rows and writes it
back. Each repository call commits, so state changes on a path survive a
later exception; in this variant the first step always raises, so none of
the later steps is reachable. -/
def cleanVoteService (v : VoteCreateIn) (uid : Nat) (db : CleanState) :
    CleanState × Except PyErr (Option VoteEntity) :=
  match cleanGetPostById db v.post_id with
  | .error e => (db, .error e)
  | .ok _ =>
    match cleanGetVote db v.post_id uid with
    | .error e => (db, .error e)
    | .ok existing =>
      if v.dir == 1 then
        match existing with
        | some _ => (db, .ok none)
        | none =>
          match cleanCreateVote db v.post_id uid with
          | (db1, .error e) => (db1, .error e)
          | (db1, .ok nv) =>
            match cleanUpdateVotes db1 v.post_id (cleanVoteCount db1 v.post_id) with
            | (db2, .error e) => (db2, .error e)
            | (db2, .ok _) => (db2, .ok (some nv))
      else
        match existing with
        | none => (db, .ok none)
        | some _ =>
          let db1 := cleanDeleteVote db v.post_id uid
          match cleanUpdateVotes db1 v.post_id (cleanVoteCount db1 v.post_id) with
          | (db2, .error e) => (db2, .error e)
          | (db2, .ok _) => (db2, .ok none)

/-- `VoteUseCases.vote_post`: 400 when the direction is neither 0 nor 1
(before any store access); then calls the service, propagates its
exceptions, and maps its `None` result to 409 (up) or 404 "Vote does not
exist" (down). -/
def cleanVotePost (v : VoteCreateIn) (currentUser : CleanUserEntity)
    (db : CleanState) : CleanState × Except PyErr VoteEntity :=
  if !(v.dir == 0 || v.dir == 1) then
    (db, .error (.http 400 "Vote direction must be 0 or 1"))
  else
    match cleanVoteService v currentUser.id db with
    | (db', .error e) => (db', .error e)
    | (db', .ok none) =>
        if v.dir == 1 then
          (db', .error (.http 409
            ("User " ++ toString currentUser.id ++
             " has already voted on post " ++ toString v.post_id)))
        else
          (db', .error (.http 404 "Vote does not exist"))
    | (db', .ok (some w)) => (db', .ok w)

/-- The denormalization invariant of the layered variant: every post's
`votes` counter equals the number of vote rows referencing it. -/
def CleanInv (db : CleanState) : Prop :=
  ∀ p ∈ db.posts, p.votes = cleanVoteCount db p.id

/-- A sequence of vote calls (each by some authenticated caller), applied
left to right through the full use case; errors only affect the response,
the state threads on. -/
def applyCleanVotes (ops : List (VoteCreateIn × CleanUserEntity))
    (db : CleanState) : CleanState :=
  ops.foldl (fun s op => (cleanVotePost op.1 op.2 s).1) db

/-! ## Spec-side definition for the listing claim

The claim about list endpoints demands, for a search string `q`, exactly
the items whose name/title contains `q` case-insensitively. For the layered
variant this is stated against the posts store directly. -/

/-- The posts a case-insensitive substring search for `q` would select, in
the spec's words. -/
def specSearchPosts (db : CleanState) (q : String) : List CleanPost :=
  db.posts.filter (fun p => ilikeContains p.title q)

/-! ## Concrete stores used by witnesses and counterexamples -/

/-- A flat/traditional store holding one product (id 1) and no votes. -/
def exTradDb1 : FlatState :=
  { users := [{ id := 7, email := "a@x.np", password := hashPassword "pw"
              , created_at := 0, approved := true, admin := false }]
  , products := [{ id := 1, name := "Chiya", price := 30, is_available := some true
                 , created_at := 1, user_id := 7 }]
  , votes := []
  , nextProductId := 2, now := 5 }

/-- The same store with an existing vote by user 7 on product 1. -/
def exTradDb2 : FlatState :=
  { exTradDb1 with votes := [{ user_id := 7, product_id := 1 }] }

/-- A layered user (id 1). -/
def exAsha : CleanUser :=
  { id := 1, email := "a@x.np", username := "asha"
  , password := hashPassword "pw1", created_at := 0 }

/-- A layered user (id 2). -/
def exBina : CleanUser :=
  { id := 2, email := "b@x.np", username := "bina"
  , password := hashPassword "pw2", created_at := 0 }

/-- A layered store: two users, one post (id 1, counter 1), one vote by
user 2 on post 1. -/
def exCleanDb : CleanState :=
  { users := [exAsha, exBina]
  , posts := [{ id := 1, title := "hello", content := "c", published := true
              , created_at := 3, owner_id := 1, votes := 1 }]
  , votes := [{ id := 9, user_id := 2, post_id := 1, created_at := 4 }]
  , nextPostId := 2, nextVoteId := 10, now := 6 }

/-- A layered store with no votes and the counter at 0. -/
def exCleanDb0 : CleanState :=
  { exCleanDb with
      posts := [{ id := 1, title := "hello", content := "c", published := true
                , created_at := 3, owner_id := 1, votes := 0 }]
    , votes := [] }

/-- The settings used by concrete token examples. -/
def exSettings : JwtSettings :=
  { secret_key := "s3cr3t", algorithm := "HS256"
  , access_token_expire_minutes := 30 }

/-- An unapproved flat user (the `approved` column is at its
`server_default "False"`). -/
def exFlatUnapproved : FlatUser :=
  { id := 8, email := "c@x.np", password := hashPassword "pw3"
  , created_at := 0, approved := false, admin := false }

/-- Number of vote rows for a given (user, product) pair in the
flat/traditional store. -/
def tradPairCount (db : FlatState) (pid uid : Nat) : Nat :=
  (db.votes.filter (fun w => w.product_id == pid && w.user_id == uid)).length

instance (db : CleanState) : Decidable (CleanInv db) :=
  inferInstanceAs (Decidable (∀ p ∈ db.posts, p.votes = cleanVoteCount db p.id))

/-! ## Claim theorems -/

/-- C3 counterexample: the layered variant's vote table declares no
uniqueness on the (user_id, post_id) pair — its only key is the surrogate
`id` — so the store level does not reject a duplicate vote there. -/
theorem clean_votes_schema_not_pair_unique :
    declaresPairUniqueness cleanVotesTable "user_id" "post_id" = false := by
  decide

/-- C3 amended: the flat/traditional vote table declares the
(user_id, product_id) pair as its composite primary key, so duplicates are
rejected at the store level in that variant; the layered variant's vote
table declares no such constraint — there the lookup in application logic
is the only guard. -/
theorem votes_pair_uniqueness_by_variant :
    declaresPairUniqueness flatVotesTable "user_id" "product_id" = true ∧
    declaresPairUniqueness cleanVotesTable "user_id" "post_id" = false := by
  decide

/-- C9: in the flat variant both `create_user` and `login` filter the user
store on `models.User.username`, but the flat `User` model declares no
`username` column, so for every input both calls raise `AttributeError`
at the lookup itself, leave the user store (indeed the whole state)
unchanged, and never succeed. -/
theorem flat_username_lookup_always_fails :
    (∀ (u : UserCreateIn) (db : FlatState),
       flatCreateUser u db = (db, .error (.attributeError "username"))) ∧
    (∀ (s : JwtSettings) (un pw : String) (db : FlatState),
       flatLogin s un pw db = (db, .error (.attributeError "username"))) := by
  constructor <;> intros <;> rfl

/-- C10: in the layered variant, a vote request whose direction is neither
0 nor 1 fails with a 400 validation error raised by the use case before it
calls the vote service, and the state (vote store and post store) is
unchanged. -/
theorem clean_vote_invalid_direction_400 (v : VoteCreateIn) (u : CleanUserEntity)
    (db : CleanState) (h0 : v.dir ≠ 0) (h1 : v.dir ≠ 1) :
    cleanVotePost v u db = (db, .error (.http 400 "Vote direction must be 0 or 1")) := by
  have hc : (v.dir == 0 || v.dir == 1) = false := by
    simp [h0, h1]
  unfold cleanVotePost
  rw [hc]
  rfl

/-- C10 witness: a concrete direction-2 vote is rejected with 400 and the
store is untouched. -/
theorem clean_vote_invalid_direction_400_witness :
    (2 : Int) ≠ 0 ∧ (2 : Int) ≠ 1 ∧
    cleanVotePost { post_id := 1, dir := 2 } (userFromOrm exBina) exCleanDb =
      (exCleanDb, .error (.http 400 "Vote direction must be 0 or 1")) :=
  ⟨by decide, by decide,
   clean_vote_invalid_direction_400 { post_id := 1, dir := 2 }
     (userFromOrm exBina) exCleanDb (by decide) (by decide)⟩

/-- C2 (bug evidence): in the layered variant, a down-vote by user 2 on
post 1 whose vote exists does not succeed: the call raises a
`ValidationError` inside `PostRepository.get_by_id` (the `Post` entity
requires `owner_username`, absent from `PostModel` rows) before the vote
is even looked up — nothing is deleted and no success is returned. (Had
`get_by_id` returned, `get_vote` would raise likewise at `Vote.from_orm`
on the missing `dir`.) The traditional variant — and the spec — return
success on this input. -/
theorem clean_downvote_crashes_before_vote_logic :
    cleanVotePost { post_id := 1, dir := 0 } (userFromOrm exBina) exCleanDb =
      (exCleanDb, .error (.validationError "owner_username")) ∧
    tradVote { product_id := 1, dir := false } 7 exTradDb2 =
      ({ exTradDb2 with votes := [] }, .ok "Successfully deleted vote") :=
  ⟨rfl, rfl⟩

/-- C5 amended: in the flat variant, every create, update or delete of a
product by an authenticated caller whose `approved` flag is false fails
with 403 Forbidden and leaves the store unchanged; the layered variant has
no `approved` flag and performs no such check (its create succeeds for any
authenticated caller — see the counterexample). -/
theorem flat_unapproved_item_writes_forbidden (cu : FlatUser) (db : FlatState)
    (h : cu.approved = false) :
    (∀ v, flatPostProduct v cu db =
       (db, .error (.http 403 "You\x27re not authorized yet!"))) ∧
    (∀ id v, flatUpdateProduct id v cu db =
       (db, .error (.http 403 "You\x27re not authorized yet!"))) ∧
    (∀ id, flatDeleteProduct id cu db =
       (db, .error (.http 403 "You\x27re not authorized yet!"))) := by
  refine ⟨fun v => ?_, fun id v => ?_, fun id => ?_⟩ <;>
    simp [flatPostProduct, flatUpdateProduct, flatDeleteProduct, h]

/-- C5 witness: a concrete unapproved caller's create, update and delete
all yield 403 and leave the concrete store unchanged. -/
theorem flat_unapproved_item_writes_forbidden_witness :
    exFlatUnapproved.approved = false ∧
    flatPostProduct { name := "Chiya", price := 30 } exFlatUnapproved exTradDb1 =
      (exTradDb1, .error (.http 403 "You\x27re not authorized yet!")) ∧
    flatUpdateProduct 1 { name := "Chiya", price := 40 } exFlatUnapproved exTradDb1 =
      (exTradDb1, .error (.http 403 "You\x27re not authorized yet!")) ∧
    flatDeleteProduct 1 exFlatUnapproved exTradDb1 =
      (exTradDb1, .error (.http 403 "You\x27re not authorized yet!")) :=
  ⟨rfl,
   (flat_unapproved_item_writes_forbidden exFlatUnapproved exTradDb1 rfl).1 _,
   (flat_unapproved_item_writes_forbidden exFlatUnapproved exTradDb1 rfl).2.1 _ _,
   (flat_unapproved_item_writes_forbidden exFlatUnapproved exTradDb1 rfl).2.2 _⟩

/-- C5 counterexample: in the layered variant a user record carries no
`approved` flag at all and `create_post` performs no approval check: a
concrete create by an ordinary authenticated caller commits the new post
row — the item store is modified — and the error the call then reports is
the serialization `ValidationError`, not Forbidden. -/
theorem clean_create_post_no_approval_gate :
    ((cleanCreatePost { title := "momo", content := "tasty" }
        (userFromOrm exBina) exCleanDb).1).posts.length
      = exCleanDb.posts.length + 1 ∧
    (cleanCreatePost { title := "momo", content := "tasty" }
        (userFromOrm exBina) exCleanDb).2
      = .error (.validationError "owner_username") ∧
    PyErr.validationError "owner_username" ≠
      PyErr.http 403 "You\x27re not authorized yet!" :=
  ⟨rfl, rfl, by decide⟩

/-- C1: the traditional vote endpoint implements exactly the claimed case
split — 404 when the product is absent; for an up-vote, 409 when the
caller's vote already exists and otherwise the insertion of exactly one
(user, product) vote row; for a down-vote, 404 "Vote does not exist" when
no vote exists and otherwise the deletion of that vote (afterwards no
(user, product) row remains). -/
theorem trad_vote_toggle (v : VoteIn) (uid : Nat) (db : FlatState) :
    (productExists db v.product_id = false →
       tradVote v uid db = (db, .error (.http 404
         ("Product with id " ++ toString v.product_id ++ " doesn\x27t exist")))) ∧
    (productExists db v.product_id = true → v.dir = true →
       ∀ w, tradFindVote db v.product_id uid = some w →
       tradVote v uid db = (db, .error (.http 409
         ("User " ++ toString uid ++ " has already voted on product " ++
          toString v.product_id)))) ∧
    (productExists db v.product_id = true → v.dir = true →
       tradFindVote db v.product_id uid = none →
       tradVote v uid db =
         ({ db with votes := db.votes ++ [{ user_id := uid, product_id := v.product_id }] },
          .ok "Successfully added vote") ∧
       tradPairCount (tradVote v uid db).1 v.product_id uid = 1) ∧
    (productExists db v.product_id = true → v.dir = false →
       tradFindVote db v.product_id uid = none →
       tradVote v uid db = (db, .error (.http 404 "Vote does not exist"))) ∧
    (productExists db v.product_id = true → v.dir = false →
       ∀ w, tradFindVote db v.product_id uid = some w →
       tradVote v uid db =
         ({ db with votes := (db.votes.filter
             (fun x => !(x.product_id == v.product_id && x.user_id == uid))) },
          .ok "Successfully deleted vote") ∧
       tradPairCount (tradVote v uid db).1 v.product_id uid = 0) := by
  refine ⟨?_, ?_, ?_, ?_, ?_⟩
  · intro h
    unfold productExists at h
    cases hp : db.products.find? (fun p => p.id == v.product_id) with
    | none => simp [tradVote, hp]
    | some p => rw [hp] at h; simp at h
  · intro h1 h2 w hw
    unfold productExists at h1
    obtain ⟨p, hp⟩ := Option.isSome_iff_exists.1 h1
    simp [tradVote, hp, hw, h2]
  · intro h1 h2 hw
    unfold productExists at h1
    obtain ⟨p, hp⟩ := Option.isSome_iff_exists.1 h1
    have hE : tradVote v uid db =
        ({ db with votes := db.votes ++ [{ user_id := uid, product_id := v.product_id }] },
         .ok "Successfully added vote") := by
      simp [tradVote, hp, hw, h2]
    refine ⟨hE, ?_⟩
    rw [hE]
    have hfil : db.votes.filter
        (fun x => x.product_id == v.product_id && x.user_id == uid) = [] := by
      rw [List.filter_eq_nil_iff]
      intro a ha
      unfold tradFindVote at hw
      exact List.find?_eq_none.1 hw a ha
    simp [tradPairCount, List.filter_append, hfil]
  · intro h1 h2 hw
    unfold productExists at h1
    obtain ⟨p, hp⟩ := Option.isSome_iff_exists.1 h1
    simp [tradVote, hp, hw, h2]
  · intro h1 h2 w hw
    unfold productExists at h1
    obtain ⟨p, hp⟩ := Option.isSome_iff_exists.1 h1
    have hE : tradVote v uid db =
        ({ db with votes := (db.votes.filter
            (fun x => !(x.product_id == v.product_id && x.user_id == uid))) },
         .ok "Successfully deleted vote") := by
      simp [tradVote, hp, hw, h2]
    refine ⟨hE, ?_⟩
    rw [hE]
    simp [tradPairCount, List.filter_filter]

/-- C1 witness: the five cases of the traditional vote toggle on concrete
stores — missing product, duplicate up-vote, fresh up-vote, down-vote with
no vote, down-vote with a vote. -/
theorem trad_vote_toggle_witness :
    (productExists exTradDb1 5 = false ∧
     tradVote { product_id := 5, dir := true } 7 exTradDb1 =
       (exTradDb1, .error (.http 404 "Product with id 5 doesn\x27t exist"))) ∧
    (productExists exTradDb2 1 = true ∧
     tradFindVote exTradDb2 1 7 = some { user_id := 7, product_id := 1 } ∧
     tradVote { product_id := 1, dir := true } 7 exTradDb2 =
       (exTradDb2, .error (.http 409 "User 7 has already voted on product 1"))) ∧
    (productExists exTradDb1 1 = true ∧
     tradFindVote exTradDb1 1 7 = none ∧
     tradVote { product_id := 1, dir := true } 7 exTradDb1 =
       ({ exTradDb1 with votes := [{ user_id := 7, product_id := 1 }] },
        .ok "Successfully added vote") ∧
     tradPairCount (tradVote { product_id := 1, dir := true } 7 exTradDb1).1 1 7 = 1) ∧
    (tradVote { product_id := 1, dir := false } 7 exTradDb1 =
       (exTradDb1, .error (.http 404 "Vote does not exist"))) ∧
    (tradVote { product_id := 1, dir := false } 7 exTradDb2 =
       ({ exTradDb2 with votes := [] }, .ok "Successfully deleted vote") ∧
     tradPairCount (tradVote { product_id := 1, dir := false } 7 exTradDb2).1 1 7 = 0) := by
  refine ⟨⟨by decide, ?_⟩, ⟨by decide, by decide, ?_⟩, ⟨by decide, by decide, ?_⟩, ?_, ?_⟩
  · exact (trad_vote_toggle { product_id := 5, dir := true } 7 exTradDb1).1 (by decide)
  · exact (trad_vote_toggle { product_id := 1, dir := true } 7 exTradDb2).2.1
      (by decide) rfl { user_id := 7, product_id := 1 } (by decide)
  · exact (trad_vote_toggle { product_id := 1, dir := true } 7 exTradDb1).2.2.1
      (by decide) rfl (by decide)
  · exact (trad_vote_toggle { product_id := 1, dir := false } 7 exTradDb1).2.2.2.1
      (by decide) rfl (by decide)
  · have h := (trad_vote_toggle { product_id := 1, dir := false } 7 exTradDb2).2.2.2.2
      (by decide) rfl { user_id := 7, product_id := 1 } (by decide)
    exact ⟨by rw [h.1]; rfl, h.2⟩

/-- C6 (bug evidence): in the layered variant, login with the correct
username and password of a stored user does not issue a token:
`authenticate_user` reads `user.hashed_password` on the `User` entity
returned by `get_by_username`, and `User.from_orm` drops the hash (only
the never-constructed `UserInDB` entity declares `hashed_password`), so
the call raises `AttributeError` for every existing username — the
claimed login/verify roundtrip can never start. -/
theorem clean_login_crashes_reading_hash :
    verifyPassword "pw1" exAsha.password = true ∧
    cleanLogin exSettings exCleanDb "asha" "pw1" =
      .error (.attributeError "hashed_password") :=
  ⟨by decide, rfl⟩

/-- C7 counterexample: with an existing username and a wrong password the
layered login does not fail with 401 — it raises `AttributeError` at
`user.hashed_password` before any credential check. -/
theorem clean_login_hash_check_crashes :
    cleanLogin exSettings exCleanDb "bina" "wrong" =
      .error (.attributeError "hashed_password") ∧
    PyErr.attributeError "hashed_password" ≠
      PyErr.http 401 "Incorrect username or password" :=
  ⟨rfl, by decide⟩

/-- C7 amended: in the layered variant, login fails with 401 "Incorrect
username or password" exactly when the username is absent from the store;
when the username exists the call raises `AttributeError` at
`user.hashed_password` before any password check, so login never issues a
token for any input. The flat variant's login always fails with
`AttributeError` at the `username` lookup. -/
theorem clean_login_never_issues_token (s : JwtSettings) (db : CleanState)
    (un pw : String) :
    (cleanGetByUsername db un = none →
       cleanLogin s db un pw = .error (.http 401 "Incorrect username or password")) ∧
    (∀ u, cleanGetByUsername db un = some u →
       cleanLogin s db un pw = .error (.attributeError "hashed_password")) ∧
    (∀ t, cleanLogin s db un pw ≠ .ok t) ∧
    (∀ (s' : JwtSettings) (un' pw' : String) (dbf : FlatState),
       flatLogin s' un' pw' dbf = (dbf, .error (.attributeError "username"))) := by
  refine ⟨?_, ?_, ?_, ?_⟩
  · intro h
    unfold cleanLogin authenticateUser
    rw [h]
  · intro u hu
    unfold cleanLogin authenticateUser
    rw [hu]
    rfl
  · intro t ht
    unfold cleanLogin authenticateUser at ht
    cases hu : cleanGetByUsername db un with
    | none => rw [hu] at ht; simp at ht
    | some u => rw [hu] at ht; simp [cleanUserEntityAttr] at ht
  · intro s' un' pw' dbf
    rfl

/-- C7 witness: concrete instances — an unknown username gives 401; an
existing username, even with its correct password, raises the attribute
error instead of yielding a token; the flat login errors at the username
lookup. -/
theorem clean_login_never_issues_token_witness :
    (cleanGetByUsername exCleanDb "nabin" = none ∧
     cleanLogin exSettings exCleanDb "nabin" "pw" =
       .error (.http 401 "Incorrect username or password")) ∧
    (cleanGetByUsername exCleanDb "bina" = some (userFromOrm exBina) ∧
     cleanLogin exSettings exCleanDb "bina" "pw2" =
       .error (.attributeError "hashed_password")) ∧
    cleanLogin exSettings exCleanDb "bina" "pw2" ≠
      .ok (createAccessToken exSettings exCleanDb.now 2) ∧
    flatLogin exSettings "bina" "pw2" exTradDb1 =
      (exTradDb1, .error (.attributeError "username")) := by
  refine ⟨⟨by decide, ?_⟩, ⟨by decide, ?_⟩, ?_, ?_⟩
  · exact (clean_login_never_issues_token exSettings exCleanDb "nabin" "pw").1
      (by decide)
  · exact (clean_login_never_issues_token exSettings exCleanDb "bina" "pw2").2.1
      (userFromOrm exBina) (by decide)
  · exact (clean_login_never_issues_token exSettings exCleanDb "bina" "pw2").2.2.1 _
  · exact (clean_login_never_issues_token exSettings exCleanDb "bina" "pw2").2.2.2
      exSettings "bina" "pw2" exTradDb1

/-- Serializing any flat product fails: the owning user row is either
missing or lacks the `username` attribute. -/
theorem productFromOrm_error (db : FlatState) (p : FlatProduct) :
    ∃ e, productFromOrm db p = .error e := by
  unfold productFromOrm userOutFromOrm
  cases hf : db.users.find? (fun u => u.id == p.user_id) with
  | none => exact ⟨_, rfl⟩
  | some u => exact ⟨_, rfl⟩

/-- Serializing any layered post fails on the missing `owner_username`. -/
theorem postFromOrm_error (p : CleanPost) :
    postFromOrm p = .error (.validationError "owner_username") := rfl

/-- Every layered vote call fails inside `get_by_id` (404 or
`ValidationError`) before any mutation: the service always returns the
untouched state together with an error. -/
theorem cleanVoteService_always_errors (v : VoteCreateIn) (uid : Nat)
    (db : CleanState) :
    ∃ e, cleanVoteService v uid db = (db, .error e) := by
  unfold cleanVoteService cleanGetPostById
  cases hf : db.posts.find? (fun p => p.id == v.post_id) with
  | none => exact ⟨_, rfl⟩
  | some p => exact ⟨_, rfl⟩

/-- Hence the layered vote use case never modifies the store. -/
theorem cleanVotePost_state_id (v : VoteCreateIn) (u : CleanUserEntity)
    (db : CleanState) : (cleanVotePost v u db).1 = db := by
  unfold cleanVotePost
  cases hg : (v.dir == 0 || v.dir == 1) with
  | false => rfl
  | true =>
    obtain ⟨e, he⟩ := cleanVoteService_always_errors v u.id db
    rw [he]
    rfl

/-- C4 counterexample: on a concrete store the flat list endpoint reports
no count at all — its in-function serialization fails on the missing
`username` — and a concrete layered up-vote on an existing post performs
no write-back: the store is returned unchanged with the `ValidationError`
raised inside `get_by_id`, so the recompute/write-back mechanism never
runs. -/
theorem vote_counts_never_reported :
    flatGetProducts exTradDb2 20 0 "" = .error (.validationError "username") ∧
    cleanVotePost { post_id := 1, dir := 1 } (userFromOrm exAsha) exCleanDb0 =
      (exCleanDb0, .error (.validationError "owner_username")) :=
  ⟨rfl, rfl⟩

/-- C4 amended: at the query level the flat variant does compute each
product's count as the read-time aggregate, equal to its vote rows — but
the endpoint cannot report it (see the counterexample); and in the layered
variant every vote call fails before any mutation, so a sequence of vote
operations never changes the store at all: the counter invariant is
preserved only because nothing — neither vote rows nor counters — ever
changes. -/
theorem vote_count_mechanism_by_variant :
    (∀ (db : FlatState) (q : String) (pc : FlatProduct × Nat),
       pc ∈ flatProductsQuery db q → pc.2 = flatVoteCount db pc.1.id) ∧
    (∀ (v : VoteCreateIn) (u : CleanUserEntity) (db : CleanState),
       (cleanVotePost v u db).1 = db) ∧
    (∀ (ops : List (VoteCreateIn × CleanUserEntity)) (db : CleanState),
       applyCleanVotes ops db = db) ∧
    (∀ (ops : List (VoteCreateIn × CleanUserEntity)) (db : CleanState),
       CleanInv db → CleanInv (applyCleanVotes ops db)) := by
  have hseq : ∀ (ops : List (VoteCreateIn × CleanUserEntity)) (db : CleanState),
      applyCleanVotes ops db = db := by
    intro ops
    induction ops with
    | nil => intro db; rfl
    | cons op rest ih =>
      intro db
      show applyCleanVotes rest ((cleanVotePost op.1 op.2 db).1) = db
      rw [cleanVotePost_state_id]
      exact ih db
  refine ⟨?_, cleanVotePost_state_id, hseq, ?_⟩
  · intro db q pc hpc
    unfold flatProductsQuery at hpc
    have h2 := List.mem_of_mem_filter hpc
    obtain ⟨p, hp, rfl⟩ := List.mem_map.1 h2
    rfl
  · intro ops db h
    rw [hseq ops db]
    exact h

/-- C4 witness: on a concrete flat store the query row for the product
carries count 1, equal to its vote rows; a concrete layered store
satisfying the invariant still satisfies it after a concrete vote
sequence. -/
theorem vote_count_mechanism_by_variant_witness :
    ((({ id := 1, name := "Chiya", price := 30, is_available := some true
       , created_at := 1, user_id := 7 }, 1) : FlatProduct × Nat) ∈
        flatProductsQuery exTradDb2 "" ∧
     ((({ id := 1, name := "Chiya", price := 30, is_available := some true
        , created_at := 1, user_id := 7 }, 1) : FlatProduct × Nat)).2 =
       flatVoteCount exTradDb2
         ((({ id := 1, name := "Chiya", price := 30, is_available := some true
            , created_at := 1, user_id := 7 }, 1) : FlatProduct × Nat)).1.id) ∧
    (CleanInv exCleanDb ∧
     CleanInv (applyCleanVotes
       [({ post_id := 1, dir := 0 }, userFromOrm exBina)] exCleanDb)) :=
  ⟨⟨by decide, vote_count_mechanism_by_variant.1 exTradDb2 "" _ (by decide)⟩,
   ⟨by decide, vote_count_mechanism_by_variant.2.2.2
      [({ post_id := 1, dir := 0 }, userFromOrm exBina)] exCleanDb (by decide)⟩⟩

/-- C8 counterexample: neither list endpoint can return the matching
items. On a concrete layered store whose only post is titled "hello", the
endpoint — which declares no search parameter — returns the
`owner_username` validation error, not the empty match set the claimed
search filter would require for "zzz"; on a concrete flat store the
search "chi" matches the product, yet the endpoint returns the `username`
validation error instead of the matching product. -/
theorem list_endpoints_crash_on_results :
    cleanGetAll exCleanDb 0 10 = .error (.validationError "owner_username") ∧
    specSearchPosts exCleanDb "zzz" = [] ∧
    flatGetProducts exTradDb2 20 0 "chi" = .error (.validationError "username") :=
  ⟨rfl, by decide, rfl⟩

/-- C8 amended: the flat list endpoint accepts `limit`, `skip` and the
case-insensitive substring `search` filter, and its query selects exactly
the name-matching products offset by `skip` and bounded by `limit`; the
layered list endpoint accepts only `skip` and `limit` and its query
orders by creation time descending — but in both variants the endpoint
body fails to serialize any selected row, so each endpoint ever returns
only the empty list (when the page is empty) or an error. -/
theorem list_endpoint_semantics_by_variant :
    (∀ (db : FlatState) (l s : Nat) (q : String),
       (((flatProductsQuery db q).drop s).take l).map Prod.fst =
         (((db.products.filter (fun p => ilikeContains p.name q)).drop s).take l)) ∧
    (∀ (db : FlatState) (l s : Nat) (q : String) (res : List ProductOut),
       flatGetProducts db l s q = .ok res → res = []) ∧
    (∀ (db : CleanState) (skip limit : Nat),
       List.Sorted postLater (cleanPostsPage db skip limit)) ∧
    (∀ (db : CleanState) (skip limit : Nat) (res : List PostEntity),
       cleanGetAll db skip limit = .ok res → res = []) := by
  refine ⟨?_, ?_, ?_, ?_⟩
  · intro db l s q
    unfold flatProductsQuery
    rw [List.filter_map]
    rw [← List.map_drop, ← List.map_take, List.map_map]
    have hfun : (Prod.fst ∘ (fun p : FlatProduct => (p, flatVoteCount db p.id))) =
        (id : FlatProduct → FlatProduct) := by
      funext p
      rfl
    have hpred : ((fun pc : FlatProduct × Nat => ilikeContains pc.1.name q) ∘
        (fun p : FlatProduct => (p, flatVoteCount db p.id))) =
        (fun p : FlatProduct => ilikeContains p.name q) := by
      funext p
      rfl
    rw [hfun, hpred, List.map_id]
  · intro db l s q res hres
    unfold flatGetProducts at hres
    cases hpage : ((flatProductsQuery db q).drop s).take l with
    | nil =>
        rw [hpage] at hres
        exact (Except.ok.inj hres).symm
    | cons hd tl =>
        rw [hpage] at hres
        obtain ⟨p, c⟩ := hd
        obtain ⟨e, he⟩ := productFromOrm_error db p
        have hform : productsOut db ((p, c) :: tl) = .error e := by
          unfold productsOut
          rw [he]
        rw [hform] at hres
        simp at hres
  · intro db skip limit
    have hs : List.Sorted postLater (List.insertionSort postLater db.posts) :=
      List.sorted_insertionSort postLater db.posts
    have hsub : List.Sublist
        (((List.insertionSort postLater db.posts).drop skip).take limit)
        (List.insertionSort postLater db.posts) :=
      (List.take_sublist _ _).trans (List.drop_sublist _ _)
    exact List.Pairwise.sublist hsub hs
  · intro db skip limit res hres
    unfold cleanGetAll at hres
    cases hpage : cleanPostsPage db skip limit with
    | nil =>
        rw [hpage] at hres
        exact (Except.ok.inj hres).symm
    | cons hd tl =>
        rw [hpage] at hres
        have hform : postsFromOrm (hd :: tl) =
            .error (.validationError "owner_username") := by
          unfold postsFromOrm
          rw [postFromOrm_error]
        rw [hform] at hres
        simp at hres

/-- C8 witness: on concrete stores with an empty page (skip past every
row) both endpoints return the empty list, and the instantiated
conclusions hold. -/
theorem list_endpoint_semantics_by_variant_witness :
    flatGetProducts exTradDb2 20 5 "" = .ok [] ∧
    cleanGetAll exCleanDb 5 10 = .ok [] ∧
    ([] : List ProductOut) = [] ∧
    ([] : List PostEntity) = [] :=
  ⟨rfl, rfl,
   list_endpoint_semantics_by_variant.2.1 exTradDb2 20 5 "" [] rfl,
   list_endpoint_semantics_by_variant.2.2.2 exCleanDb 5 10 [] rfl⟩
